import Mathlib

/-!
Shallow embedding of `src/agendar.py` (MCP appointment-scheduling server).

The module exposes three operations over a JSON file of rooms
("consultorios") and a JSON catalog of specialties ("especialidades"):
`get_especialidades`, `get_consultorios_disponibles` and
`reservar_consultorio`, plus the helpers `_time_ok`, `_in_range` and
`_atomic_write`.

Modelling conventions:
- A JSON string value that may be absent from its object is an
  `Option String` (`none` = key absent; `dict.get` with a default becomes
  `Option.getD`).
- Python `str.strip()` is `pyStrip`, `str.lower()` is `pyLower` (ASCII
  case mapping, as in Lean core's `Char.toLower`).
- `datetime.strptime(s, "%H:%M")` is `parseHM : String → Option Nat`,
  returning minutes since midnight (Python compares `time` objects
  lexicographically on (hour, minute), which coincides with the
  minutes-since-midnight order).  `none` models the `ValueError` raised on
  a malformed string.
- The persisted consultorios file is a `Store`: `absent` (path does not
  exist), `unreadable` (open/parse raises), or `ok data` (parses, with
  `data` the value of the top-level "consultorios" field, `[]` when the
  field is missing).  `_atomic_write` either replaces the store in one
  step or leaves it untouched; the environment choice "does the write
  succeed" is the explicit `writeOk : Bool` argument.
- An operation that can let a Python exception escape to the caller
  returns an `Option` result; `none` is an uncaught exception.
-/

namespace Agendar

/-- Characters stripped by Python `str.strip()` (ASCII whitespace). -/
def pyIsSpace (c : Char) : Bool :=
  c == ' ' || c == '\t' || c == '\n' || c == '\r' || c == '\x0b' || c == '\x0c'

/-- Drop leading whitespace characters. -/
def dropWS : List Char → List Char
  | [] => []
  | c :: cs => if pyIsSpace c then dropWS cs else c :: cs

/-- Python `s.strip()`: remove whitespace from both ends. -/
def pyStrip (s : String) : String :=
  String.mk ((dropWS (dropWS s.data).reverse).reverse)

/-- Python `s.lower()` (ASCII letters; the identifiers compared in the
source are ASCII). -/
def pyLower (s : String) : String :=
  String.mk (s.data.map Char.toLower)

/-- Value of a decimal digit character. -/
def digitVal (c : Char) : Option Nat :=
  if c.isDigit then some (c.toNat - 48) else none

/-- Split a character list at its first colon. -/
def splitColon : List Char → Option (List Char × List Char)
  | [] => none
  | c :: cs =>
    if c == ':' then some ([], cs)
    else
      match splitColon cs with
      | none => none
      | some (a, b) => some (c :: a, b)

/-- The `%H` field of `strptime`: one digit, or two digits valued 00–23. -/
def hourTok : List Char → Option Nat
  | [c] => digitVal c
  | [c, d] =>
    match digitVal c, digitVal d with
    | some a, some b => if a * 10 + b ≤ 23 then some (a * 10 + b) else none
    | _, _ => none
  | _ => none

/-- The `%M` field of `strptime`: one digit, or two digits valued 00–59. -/
def minuteTok : List Char → Option Nat
  | [c] => digitVal c
  | [c, d] =>
    match digitVal c, digitVal d with
    | some a, some b => if a * 10 + b ≤ 59 then some (a * 10 + b) else none
    | _, _ => none
  | _ => none

/-- `datetime.strptime(s, "%H:%M")`, as minutes since midnight; `none` is
the `ValueError` on a malformed string. -/
def parseHM (s : String) : Option Nat :=
  match splitColon s.data with
  | none => none
  | some (h, m) =>
    match hourTok h, minuteTok m with
    | some hv, some mv => some (hv * 60 + mv)
    | _, _ => none

/-- `_time_ok(hora)`: the `strptime` call succeeds. -/
def _time_ok (hora : String) : Bool :=
  (parseHM hora).isSome

/-- `_in_range(hora, inicio, fin)`: parses all three operands and tests
`inicio ≤ hora ≤ fin`; `none` models the exception `strptime` raises when
any operand is malformed (the function itself does not guard). -/
def _in_range (hora inicio fin : String) : Option Bool :=
  match parseHM hora, parseHM inicio, parseHM fin with
  | some t, some ti, some tf => some (decide (ti ≤ t) && decide (t ≤ tf))
  | _, _, _ => none

/-- A specialty object embedded in a room (only its "nombre" key is read
by the operations; `none` = key absent). -/
structure Especialidad where
  nombre : Option String
deriving DecidableEq

/-- The "horario" object of a room: `{"inicio": ..., "fin": ...}`, each
key possibly absent. -/
structure Horario where
  inicio : Option String
  fin : Option String
deriving DecidableEq

/-- One record of the "consultorios" list.  Every key the source reads is
optional, mirroring `dict.get`. -/
structure Consultorio where
  nombre : Option String
  especialidad : Option Especialidad
  ubicacion : Option String
  horario : Option Horario
  paciente : Option String
deriving DecidableEq

/-- The persisted consultorios file as the operations observe it:
missing path, present-but-unreadable (open or `json.load` raises), or a
parsed document whose "consultorios" field is `data` (missing field =
`[]`). -/
inductive Store where
  | absent
  | unreadable
  | ok (data : List Consultorio)
deriving DecidableEq

/-- `horario.get("inicio")` after `sel.get("horario", {})`. -/
def horarioInicio (c : Consultorio) : Option String :=
  match c.horario with
  | none => none
  | some h => h.inicio

/-- `horario.get("fin")` after `sel.get("horario", {})`. -/
def horarioFin (c : Consultorio) : Option String :=
  match c.horario with
  | none => none
  | some h => h.fin

/-- `sel.get("nombre", "Consultorio")`. -/
def nombreDe (c : Consultorio) : String :=
  (c.nombre).getD "Consultorio"

/-- `str(sel.get("paciente", ""))`. -/
def pacDe (c : Consultorio) : String :=
  (c.paciente).getD ""

/-- `sel.get("especialidad", {}).get("nombre", "—")` (success message). -/
def espNomDe (c : Consultorio) : String :=
  match c.especialidad with
  | none => "—"
  | some e => (e.nombre).getD "—"

/-- `sel.get("ubicacion", "—")`. -/
def ubicDe (c : Consultorio) : String :=
  (c.ubicacion).getD "—"

/-- `c.get("especialidad", {}).get("nombre", "")` (availability filter). -/
def espNombreDe (c : Consultorio) : String :=
  match c.especialidad with
  | none => ""
  | some e => (e.nombre).getD ""

/-- `c.get("especialidad", {}).get("nombre")` (listing display: absent key
renders as Python `None`). -/
def espNombreOpt (c : Consultorio) : Option String :=
  match c.especialidad with
  | none => none
  | some e => e.nombre

/-- How an `Option String` renders inside an f-string: Python prints
`None` for a missing value. -/
def pyShow : Option String → String
  | some s => s
  | none => "None"

/-- Result of `reservar_consultorio`: one constructor per `return`
statement, carrying exactly the data that return's message interpolates. -/
inductive RResult where
  | missingFile
  | emptyPatient
  | badTime
  | readError
  | notFound (crit : String)
  | badSchedule (nombre : String)
  | outOfHours (nombre h_ini h_fin hora : String)
  | occupied (nombre actual : String)
  | writeError
  | success (paciente nombre esp_nom ubic hora h_ini h_fin : String)
deriving DecidableEq

/-- The "ok" field of the dict `reservar_consultorio` returns. -/
def okR : RResult → Bool
  | RResult.success _ _ _ _ _ _ _ => true
  | _ => false

/-- The "message" field of the dict `reservar_consultorio` returns (the
file-path and exception interpolations, constant for a fixed deployment,
are elided). -/
def mensajeR : RResult → String
  | RResult.missingFile => "❌ No se encontró el archivo: data/consultorios.json"
  | RResult.emptyPatient => "❌ Debes indicar el nombre del paciente."
  | RResult.badTime => "❌ Hora inválida. Usa el formato HH:MM (24h)."
  | RResult.readError => "⚠️ No se pudo leer el archivo."
  | RResult.notFound crit => "🔎 No encontré un consultorio que coincida con " ++ crit ++ "."
  | RResult.badSchedule nombre =>
    "⚠️ El consultorio «" ++ nombre ++ "» no tiene horario válido configurado."
  | RResult.outOfHours nombre h_ini h_fin hora =>
    "⏰ «" ++ nombre ++ "» atiende de " ++ h_ini ++ " a " ++ h_fin ++
      ". La hora solicitada (" ++ hora ++ ") está fuera de rango. " ++
      "Por favor, elige una hora dentro del horario de atención."
  | RResult.occupied nombre actual =>
    "🚫 El consultorio «" ++ nombre ++ "» ya está ocupado por: " ++ actual ++
      ".\nElige otro consultorio u otro horario."
  | RResult.writeError => "⚠️ No se pudo actualizar el archivo."
  | RResult.success paciente nombre esp_nom ubic hora h_ini h_fin =>
    "✅ *Cita reservada exitosamente*\n• Paciente: " ++ paciente ++
      "\n• Consultorio: " ++ nombre ++ "\n• Especialidad: " ++ esp_nom ++
      "\n• Ubicación: " ++ ubic ++ "\n• Hora: " ++ hora ++
      "\n• Horario de atención del consultorio: " ++ h_ini ++ "–" ++ h_fin

/-- Room-name match of the reservation loop:
`consultorio_nombre and str(c.get("nombre", "")).strip().lower() ==
consultorio_nombre.strip().lower()` (a `None` or empty selector is falsy,
so it matches nothing). -/
def matchesSel (cn : Option String) (c : Consultorio) : Bool :=
  match cn with
  | none => false
  | some n => n != "" && (pyLower (pyStrip ((c.nombre).getD "")) == pyLower (pyStrip n))

/-- The reservation loop `for c in consultorios: ... break`: first match
in list order, returned with the rooms before and after it. -/
def buscar (cn : Option String) : List Consultorio →
    Option (List Consultorio × Consultorio × List Consultorio)
  | [] => none
  | c :: rest =>
    if matchesSel cn c then some ([], c, rest)
    else
      match buscar cn rest with
      | none => none
      | some (pre, s, post) => some (c :: pre, s, post)

/-- `crit = consultorio_nombre or "(sin criterio)"`. -/
def critOf : Option String → String
  | none => "(sin criterio)"
  | some n => if n == "" then "(sin criterio)" else n

/-- The two input validations that run after the existence check and
before the file is read: empty patient name, then malformed time. -/
def checksPrevios (paciente_nombre hora : String) : Option RResult :=
  if pyStrip paciente_nombre == "" then some RResult.emptyPatient
  else if hora == "" || ! _time_ok hora then some RResult.badTime
  else none

/-- The pipeline from "Buscar consultorio" down: resolve the room, check
its configured schedule, the requested time, occupancy; then mark the
reservation and write the file.  `none` is an uncaught exception (only
`_in_range` could raise here). -/
def reservarCore (writeOk : Bool) (data : List Consultorio)
    (paciente_nombre hora : String) (consultorio_nombre : Option String) :
    Option (RResult × Store) :=
  match buscar consultorio_nombre data with
  | none => some (RResult.notFound (critOf consultorio_nombre), Store.ok data)
  | some (pre, sel, post) =>
    match horarioInicio sel, horarioFin sel with
    | some h_ini, some h_fin =>
      if h_ini != "" && h_fin != "" && _time_ok h_ini && _time_ok h_fin then
        match _in_range hora h_ini h_fin with
        | none => none
        | some b =>
          if ! b then
            some (RResult.outOfHours (nombreDe sel) h_ini h_fin hora, Store.ok data)
          else if pyStrip (pacDe sel) != "" then
            some (RResult.occupied (nombreDe sel) (pacDe sel), Store.ok data)
          else if writeOk then
            some (RResult.success paciente_nombre (nombreDe sel) (espNomDe sel)
                    (ubicDe sel) hora h_ini h_fin,
                  Store.ok (pre ++ { sel with paciente := some (pyStrip paciente_nombre) } :: post))
          else
            some (RResult.writeError, Store.ok data)
      else
        some (RResult.badSchedule (nombreDe sel), Store.ok data)
    | _, _ => some (RResult.badSchedule (nombreDe sel), Store.ok data)

/-- `reservar_consultorio(paciente_nombre, hora, consultorio_nombre)`:
existence check, input validations, read, then the core pipeline.  The
store component of the result is the persisted file after the call
(`_atomic_write` replaces it in one step on success and leaves it
untouched on any failure, `writeOk` choosing which). -/
def reservar_consultorio (writeOk : Bool) (store : Store)
    (paciente_nombre hora : String) (consultorio_nombre : Option String) :
    Option (RResult × Store) :=
  match store with
  | Store.absent => some (RResult.missingFile, Store.absent)
  | Store.unreadable =>
    match checksPrevios paciente_nombre hora with
    | some r => some (r, Store.unreadable)
    | none => some (RResult.readError, Store.unreadable)
  | Store.ok data =>
    match checksPrevios paciente_nombre hora with
    | some r => some (r, Store.ok data)
    | none => reservarCore writeOk data paciente_nombre hora consultorio_nombre

/-- Specialty filter of the availability loop: `match = True`, overwritten
by the stripped, lowered comparison only when `especialidad_nombre` is
truthy. -/
def matchesEsp (filtro : Option String) (c : Consultorio) : Bool :=
  match filtro with
  | none => true
  | some n => n == "" || (pyLower (pyStrip (espNombreDe c)) == pyLower (pyStrip n))

/-- The availability loop of `get_consultorios_disponibles`: skip rooms
with a truthy "paciente", keep those passing the specialty filter. -/
def seleccionar (filtro : Option String) : List Consultorio → List Consultorio
  | [] => []
  | c :: rest =>
    if ((c.paciente).getD "") != "" then seleccionar filtro rest
    else if matchesEsp filtro c then c :: seleccionar filtro rest
    else seleccionar filtro rest

/-- One bullet of the listing.  The source indexes `c['horario']['inicio']`
and `c['horario']['fin']` directly, outside any `try`: a missing key raises
`KeyError`, modelled as `none`. -/
def lineaDe (c : Consultorio) : Option String :=
  match c.horario with
  | none => none
  | some h =>
    match h.inicio, h.fin with
    | some h_ini, some h_fin =>
      some ("• " ++ pyShow c.nombre ++ "\n  Especialidad: " ++ pyShow (espNombreOpt c) ++
        "\n  Ubicación: " ++ pyShow c.ubicacion ++
        "\n  Horario: " ++ h_ini ++ " - " ++ h_fin ++ "\n")
    | _, _ => none

/-- All bullets, failing as soon as one room raises. -/
def lineasDe : List Consultorio → Option (List String)
  | [] => some []
  | c :: rest =>
    match lineaDe c, lineasDe rest with
    | some l, some ls => some (l :: ls)
    | _, _ => none

/-- Python `"\n".join`. -/
def joinNL : List String → String
  | [] => ""
  | [s] => s
  | s :: rest => s ++ "\n" ++ joinNL rest

/-- `filtro = especialidad_nombre or "todas las especialidades"`. -/
def critFiltro : Option String → String
  | none => "todas las especialidades"
  | some n => if n == "" then "todas las especialidades" else n

/-- Result of `get_consultorios_disponibles`: one constructor per return
statement. -/
inductive LResult where
  | missingFile
  | readError
  | noneAvailable (texto : String)
  | listado (texto : String)
deriving DecidableEq

/-- The "ok" field of the dict `get_consultorios_disponibles` returns
(the two error returns use an "error" key and `ok: False`). -/
def okL : LResult → Bool
  | LResult.missingFile => false
  | LResult.readError => false
  | LResult.noneAvailable _ => true
  | LResult.listado _ => true

/-- `get_consultorios_disponibles(especialidad_nombre)`.  `none` is an
uncaught exception: the formatting loop runs outside the `try` block, so
a retained room without full "horario" keys raises to the caller. -/
def get_consultorios_disponibles (store : Store) (especialidad_nombre : Option String) :
    Option LResult :=
  match store with
  | Store.absent => some LResult.missingFile
  | Store.unreadable => some LResult.readError
  | Store.ok data =>
    if (seleccionar especialidad_nombre data).isEmpty then
      some (LResult.noneAvailable ("🔎 No hay consultorios disponibles para " ++
        critFiltro especialidad_nombre ++ " en este momento."))
    else
      match lineasDe (seleccionar especialidad_nombre data) with
      | none => none
      | some ls => some (LResult.listado (pyStrip (joinNL ("🦷 Consultorios disponibles:\n" :: ls))))

/-- The persisted especialidades file as `get_especialidades` observes
it: missing path, unreadable, or parsed with the "especialidades" field
holding `lista` (missing field = `[]`). -/
inductive CatStore where
  | absent
  | unreadable
  | ok (lista : List Especialidad)
deriving DecidableEq

/-- Result of `get_especialidades`: one constructor per return. -/
inductive EResult where
  | missingFile
  | readError
  | okLista (count : Nat) (lista : List Especialidad)
deriving DecidableEq

/-- The "ok" field of the dict `get_especialidades` returns. -/
def okE : EResult → Bool
  | EResult.missingFile => false
  | EResult.readError => false
  | EResult.okLista _ _ => true

/-- `get_especialidades()`: existence check, wrapped read, pass-through
of the list with its count.  Every fallible step is inside the `try`, so
the function is total. -/
def get_especialidades : CatStore → EResult
  | CatStore.absent => EResult.missingFile
  | CatStore.unreadable => EResult.readError
  | CatStore.ok lista => EResult.okLista lista.length lista

/-! ### Helper lemmas -/

/-- A `some` result of `_in_range` on fully parsed operands. -/
theorem in_range_eq (t i f : String) (vt vi vf : Nat)
    (ht : parseHM t = some vt) (hi : parseHM i = some vi) (hf : parseHM f = some vf) :
    _in_range t i f = some (decide (vi ≤ vt) && decide (vt ≤ vf)) := by
  unfold _in_range
  rw [ht, hi, hf]

/-- `_in_range` raises no exception once all three operands pass
`_time_ok`. -/
theorem in_range_isSome (t i f : String)
    (ht : _time_ok t = true) (hi : _time_ok i = true) (hf : _time_ok f = true) :
    (_in_range t i f).isSome = true := by
  unfold _time_ok at ht hi hf
  obtain ⟨vt, hvt⟩ := Option.isSome_iff_exists.mp ht
  obtain ⟨vi, hvi⟩ := Option.isSome_iff_exists.mp hi
  obtain ⟨vf, hvf⟩ := Option.isSome_iff_exists.mp hf
  rw [in_range_eq t i f vt vi vf hvt hvi hvf]
  rfl

/-- First match wins: a room list split around the first matching room is
what `buscar` returns. -/
theorem buscar_append (cn : Option String) (pre post : List Consultorio) (sel : Consultorio)
    (hpre : ∀ c ∈ pre, matchesSel cn c = false) (hsel : matchesSel cn sel = true) :
    buscar cn (pre ++ sel :: post) = some (pre, sel, post) := by
  induction pre with
  | nil => simp [buscar, hsel]
  | cons c rest ih =>
    have hc : matchesSel cn c = false := hpre c (List.mem_cons_self c rest)
    have hrest : ∀ x ∈ rest, matchesSel cn x = false :=
      fun x hx => hpre x (List.mem_cons_of_mem c hx)
    simp [buscar, hc, ih hrest]

/-- No room matches, no room is found. -/
theorem buscar_none (cn : Option String) (data : List Consultorio)
    (h : ∀ c ∈ data, matchesSel cn c = false) :
    buscar cn data = none := by
  induction data with
  | nil => rfl
  | cons c rest ih =>
    have hc : matchesSel cn c = false := h c (List.mem_cons_self c rest)
    have hrest : ∀ x ∈ rest, matchesSel cn x = false :=
      fun x hx => h x (List.mem_cons_of_mem c hx)
    simp [buscar, hc, ih hrest]

/-- A found room decomposes the list it was found in. -/
theorem buscar_decomp (cn : Option String) (data pre post : List Consultorio)
    (sel : Consultorio) (h : buscar cn data = some (pre, sel, post)) :
    data = pre ++ sel :: post := by
  induction data generalizing pre sel post with
  | nil => exact absurd h (by simp [buscar])
  | cons c rest ih =>
    unfold buscar at h
    by_cases hc : matchesSel cn c = true
    · rw [if_pos hc] at h
      simp only [Option.some.injEq, Prod.mk.injEq] at h
      obtain ⟨h1, h2, h3⟩ := h
      subst h2; subst h3
      rw [← h1]
      rfl
    · rw [if_neg hc] at h
      cases hb : buscar cn rest with
      | none => rw [hb] at h; cases h
      | some v =>
        obtain ⟨pre2, sel2, post2⟩ := v
        rw [hb] at h
        simp only [Option.some.injEq, Prod.mk.injEq] at h
        obtain ⟨h1, h2, h3⟩ := h
        subst h2; subst h3
        rw [← h1]
        simp [ih pre2 post2 sel2 hb]

/-- The two pre-read validations vanish when both pass. -/
theorem checksPrevios_none (pn hora : String)
    (hpn : pyStrip pn ≠ "") (hne : hora ≠ "") (htok : _time_ok hora = true) :
    checksPrevios pn hora = none := by
  simp [checksPrevios, hpn, hne, htok]

/-- A passing pre-read validation forces a well-formed time. -/
theorem checksPrevios_none_imp (pn hora : String)
    (h : checksPrevios pn hora = none) : _time_ok hora = true := by
  unfold checksPrevios at h
  by_cases h1 : (pyStrip pn == "") = true
  · simp [h1] at h
  · simp only [h1] at h
    by_cases h2 : (hora == "" || ! _time_ok hora) = true
    · simp [if_neg, h1, h2] at h
    · simp only [Bool.or_eq_true, Bool.not_eq_true'] at h2
      push_neg at h2
      exact Bool.not_eq_false _ ▸ h2.2

/-- On a readable store with both pre-read validations passing, the
operation is its core pipeline. -/
theorem reservar_unfold_ok (w : Bool) (data : List Consultorio) (pn hora : String)
    (cn : Option String) (hpn : pyStrip pn ≠ "") (hne : hora ≠ "")
    (htok : _time_ok hora = true) :
    reservar_consultorio w (Store.ok data) pn hora cn = reservarCore w data pn hora cn := by
  simp [reservar_consultorio, checksPrevios_none pn hora hpn hne htok]

/-- Once a room with a valid configured schedule is resolved, the pipeline
is decided by the range test, the occupancy test and the write. -/
theorem reservarCore_resolved (w : Bool) (pre post : List Consultorio) (sel : Consultorio)
    (pn hora : String) (cn : Option String) (h_ini h_fin : String) (b : Bool)
    (hpre : ∀ c ∈ pre, matchesSel cn c = false) (hsel : matchesSel cn sel = true)
    (hhi : horarioInicio sel = some h_ini) (hhf : horarioFin sel = some h_fin)
    (hine : h_ini ≠ "") (hfne : h_fin ≠ "")
    (htoki : _time_ok h_ini = true) (htokf : _time_ok h_fin = true)
    (hr : _in_range hora h_ini h_fin = some b) :
    reservarCore w (pre ++ sel :: post) pn hora cn =
      (if ! b then
        some (RResult.outOfHours (nombreDe sel) h_ini h_fin hora, Store.ok (pre ++ sel :: post))
      else if pyStrip (pacDe sel) != "" then
        some (RResult.occupied (nombreDe sel) (pacDe sel), Store.ok (pre ++ sel :: post))
      else if w then
        some (RResult.success pn (nombreDe sel) (espNomDe sel) (ubicDe sel) hora h_ini h_fin,
              Store.ok (pre ++ { sel with paciente := some (pyStrip pn) } :: post))
      else
        some (RResult.writeError, Store.ok (pre ++ sel :: post))) := by
  unfold reservarCore
  rw [buscar_append cn pre post sel hpre hsel]
  dsimp only
  rw [hhi, hhf]
  dsimp only
  have hcond : (h_ini != "" && h_fin != "" && _time_ok h_ini && _time_ok h_fin) = true := by
    simp [bne_iff_ne, hine, hfne, htoki, htokf]
  rw [if_pos hcond, hr]

/-- Master case analysis of the core pipeline: every outcome is either a
failure that leaves the store exactly as loaded, or the one success whose
store replaces only the resolved room's occupant, the write having been
requested and succeeded. -/
theorem reservarCore_spec (w : Bool) (data : List Consultorio) (pn hora : String)
    (cn : Option String) (res : RResult) (st : Store)
    (h : reservarCore w data pn hora cn = some (res, st)) :
    (okR res = false ∧ st = Store.ok data) ∨
    (∃ pre sel post h_ini h_fin,
      buscar cn data = some (pre, sel, post) ∧
      horarioInicio sel = some h_ini ∧ horarioFin sel = some h_fin ∧
      pyStrip (pacDe sel) = "" ∧
      res = RResult.success pn (nombreDe sel) (espNomDe sel) (ubicDe sel) hora h_ini h_fin ∧
      st = Store.ok (pre ++ { sel with paciente := some (pyStrip pn) } :: post) ∧
      w = true) := by
  unfold reservarCore at h
  split at h
  · simp only [Option.some.injEq, Prod.mk.injEq] at h
    exact Or.inl ⟨h.1 ▸ rfl, h.2.symm⟩
  · rename_i pre sel post hb
    split at h
    · rename_i h_ini h_fin hhi hhf
      split at h
      · rename_i hcond
        split at h
        · cases h
        · rename_i b hr
          split at h
          · simp only [Option.some.injEq, Prod.mk.injEq] at h
            exact Or.inl ⟨h.1 ▸ rfl, h.2.symm⟩
          · split at h
            · simp only [Option.some.injEq, Prod.mk.injEq] at h
              exact Or.inl ⟨h.1 ▸ rfl, h.2.symm⟩
            · rename_i hocc
              split at h
              · rename_i hw
                simp only [Option.some.injEq, Prod.mk.injEq] at h
                refine Or.inr ⟨pre, sel, post, h_ini, h_fin, hb, hhi, hhf, ?_, h.1.symm,
                  h.2.symm, hw⟩
                simpa using hocc
              · simp only [Option.some.injEq, Prod.mk.injEq] at h
                exact Or.inl ⟨h.1 ▸ rfl, h.2.symm⟩
      · simp only [Option.some.injEq, Prod.mk.injEq] at h
        exact Or.inl ⟨h.1 ▸ rfl, h.2.symm⟩
    · simp only [Option.some.injEq, Prod.mk.injEq] at h
      exact Or.inl ⟨h.1 ▸ rfl, h.2.symm⟩

/-- The core pipeline never lets an exception escape: the one `strptime`
site it reaches unguarded, `_in_range`, runs only on operands that passed
`_time_ok`. -/
theorem reservarCore_isSome (w : Bool) (data : List Consultorio) (pn hora : String)
    (cn : Option String) (htok : _time_ok hora = true) :
    (reservarCore w data pn hora cn).isSome = true := by
  unfold reservarCore
  split
  · rfl
  · rename_i pre sel post hb
    split
    · rename_i h_ini h_fin hhi hhf
      split
      · rename_i hcond
        simp only [Bool.and_eq_true] at hcond
        have hsome := in_range_isSome hora h_ini h_fin htok hcond.1.2 hcond.2
        obtain ⟨b, hb2⟩ := Option.isSome_iff_exists.mp hsome
        rw [hb2]
        dsimp only
        split
        · rfl
        · split
          · rfl
          · split <;> rfl
      · rfl
    · rfl

/-- The availability loop is a filter: free (falsy "paciente") and passing
the specialty test. -/
theorem seleccionar_eq_filter (filtro : Option String) (data : List Consultorio) :
    seleccionar filtro data =
      data.filter (fun c => (((c.paciente).getD "") == "") && matchesEsp filtro c) := by
  induction data with
  | nil => rfl
  | cons c rest ih =>
    unfold seleccionar
    by_cases hp : (((c.paciente).getD "") != "") = true
    · rw [if_pos hp]
      have : (((c.paciente).getD "") == "") = false := by
        simpa [bne] using hp
      simp [List.filter, this, ih]
    · rw [if_neg hp]
      have : (((c.paciente).getD "") == "") = true := by
        simpa [bne] using hp
      by_cases hm : matchesEsp filtro c = true
      · simp [List.filter, this, hm, ih]
      · simp only [Bool.not_eq_true] at hm
        simp [List.filter, this, hm, ih]

/-- Rendering succeeds when every listed room renders. -/
theorem lineasDe_isSome (l : List Consultorio)
    (h : ∀ c ∈ l, (lineaDe c).isSome = true) :
    (lineasDe l).isSome = true := by
  induction l with
  | nil => rfl
  | cons c rest ih =>
    have hc := h c (List.mem_cons_self c rest)
    have hrest := ih fun x hx => h x (List.mem_cons_of_mem c hx)
    obtain ⟨lc, hlc⟩ := Option.isSome_iff_exists.mp hc
    obtain ⟨ls, hls⟩ := Option.isSome_iff_exists.mp hrest
    unfold lineasDe
    rw [hlc, hls]
    rfl

/-- A retained room came from the loaded list. -/
theorem seleccionar_subset (filtro : Option String) (data : List Consultorio)
    (c : Consultorio) (h : c ∈ seleccionar filtro data) : c ∈ data := by
  rw [seleccionar_eq_filter] at h
  exact List.mem_of_mem_filter h

/-- A pre-read validation failure is never the success result. -/
theorem checksPrevios_fail (pn hora : String) (r : RResult)
    (h : checksPrevios pn hora = some r) : okR r = false := by
  unfold checksPrevios at h
  split at h
  · cases h; rfl
  · split at h
    · cases h; rfl
    · cases h

/-! ### Concrete fixtures (used by witnesses and counterexamples) -/

/-- A free room with a well-formed schedule. -/
def roomLibre : Consultorio :=
  { nombre := some "R1", especialidad := some { nombre := some "Ortodoncia" },
    ubicacion := some "Piso 1", horario := some { inicio := some "08:00", fin := some "12:00" },
    paciente := some "" }

/-- The same room after Ana reserves it. -/
def roomConAna : Consultorio := { roomLibre with paciente := some "Ana" }

/-- A room whose configured schedule is inverted: both bounds parse but
start (17:00) is after end (09:00). -/
def roomInvertido : Consultorio :=
  { roomLibre with horario := some { inicio := some "17:00", fin := some "09:00" } }

/-- A room whose "paciente" value is a non-empty, whitespace-only string. -/
def roomEspacio : Consultorio := { roomLibre with paciente := some " " }

/-- A free room whose embedded specialty name carries a trailing space. -/
def roomEspTrailing : Consultorio :=
  { nombre := some "R2", especialidad := some { nombre := some "Ortodoncia " },
    ubicacion := some "Piso 2", horario := some { inicio := some "08:00", fin := some "12:00" },
    paciente := none }

/-- A free room with no "horario" object at all. -/
def roomSinHorario : Consultorio :=
  { nombre := some "R3", especialidad := none, ubicacion := some "Piso 3",
    horario := none, paciente := none }

/-! ### Claims -/

/-- C1: every failing `reservar_consultorio` call — missing store, empty
patient name, malformed time, unreadable document, no matching room,
invalid schedule, out-of-hours time, occupied room, or write error —
leaves the persisted dataset exactly as it was; the store changes only
when every check has passed and the save succeeded. -/
theorem c1_failure_preserves_store (w : Bool) (store st2 : Store) (pn hora : String)
    (cn : Option String) (res : RResult)
    (h : reservar_consultorio w store pn hora cn = some (res, st2))
    (hfail : okR res = false) : st2 = store := by
  cases store with
  | absent =>
    simp only [reservar_consultorio, Option.some.injEq, Prod.mk.injEq] at h
    exact h.2.symm
  | unreadable =>
    simp only [reservar_consultorio] at h
    split at h <;>
    · simp only [Option.some.injEq, Prod.mk.injEq] at h
      exact h.2.symm
  | ok data =>
    simp only [reservar_consultorio] at h
    split at h
    · simp only [Option.some.injEq, Prod.mk.injEq] at h
      exact h.2.symm
    · rcases reservarCore_spec w data pn hora cn res st2 h with
        ⟨_, h2⟩ | ⟨pre, sel, post, h_ini, h_fin, _, _, _, _, hres, _, _⟩
      · exact h2
      · rw [hres] at hfail
        cases hfail

/-- C1 witness: reserving an occupied room fails and the store is
unchanged. -/
theorem c1_witness : (Store.ok [roomConAna] : Store) = Store.ok [roomConAna] :=
  c1_failure_preserves_store true (Store.ok [roomConAna]) (Store.ok [roomConAna])
    "Luis" "10:00" (some "R1") (RResult.occupied "R1" "Ana") rfl rfl

/-- C4: `_in_range` is inclusive at both bounds — for parsed times it is
exactly `start ≤ t ∧ t ≤ end` on minutes-of-day, and the three quoted
evaluations hold. -/
theorem c4_in_range_inclusive :
    (∀ t i f vt vi vf, parseHM t = some vt → parseHM i = some vi → parseHM f = some vf →
      (_in_range t i f = some true ↔ (vi ≤ vt ∧ vt ≤ vf))) ∧
    _in_range "09:00" "09:00" "17:00" = some true ∧
    _in_range "17:00" "09:00" "17:00" = some true ∧
    _in_range "17:01" "09:00" "17:00" = some false := by
  refine ⟨?_, rfl, rfl, rfl⟩
  intro t i f vt vi vf ht hi hf
  rw [in_range_eq t i f vt vi vf ht hi hf]
  simp

/-- C6: a successful reservation changes the persisted dataset only at
the resolved room, and there only its "paciente" field (set to the
trimmed patient name); the rooms before and after it, and every other
field of the room itself, are carried over, and no room is added or
removed. -/
theorem c6_success_frame (w : Bool) (store st2 : Store) (pn hora : String)
    (cn : Option String) (res : RResult)
    (h : reservar_consultorio w store pn hora cn = some (res, st2))
    (hok : okR res = true) :
    ∃ pre sel post,
      store = Store.ok (pre ++ sel :: post) ∧
      st2 = Store.ok (pre ++ { sel with paciente := some (pyStrip pn) } :: post) := by
  cases store with
  | absent =>
    simp only [reservar_consultorio, Option.some.injEq, Prod.mk.injEq] at h
    rw [← h.1] at hok
    cases hok
  | unreadable =>
    simp only [reservar_consultorio] at h
    split at h
    · rename_i r hr
      simp only [Option.some.injEq, Prod.mk.injEq] at h
      rw [← h.1] at hok
      rw [checksPrevios_fail pn hora r hr] at hok
      cases hok
    · simp only [Option.some.injEq, Prod.mk.injEq] at h
      rw [← h.1] at hok
      cases hok
  | ok data =>
    simp only [reservar_consultorio] at h
    split at h
    · rename_i r hr
      simp only [Option.some.injEq, Prod.mk.injEq] at h
      rw [← h.1] at hok
      rw [checksPrevios_fail pn hora r hr] at hok
      cases hok
    · rcases reservarCore_spec w data pn hora cn res st2 h with
        ⟨hfail, _⟩ | ⟨pre, sel, post, h_ini, h_fin, hb, _, _, _, _, hst, _⟩
      · rw [hfail] at hok
        cases hok
      · exact ⟨pre, sel, post, by rw [buscar_decomp cn data pre post sel hb], hst⟩

/-- C6 witness: Ana reserves the only room; the store gains exactly her
name in that room's "paciente" field. -/
theorem c6_witness :
    ∃ pre sel post,
      (Store.ok [roomLibre] : Store) = Store.ok (pre ++ sel :: post) ∧
      (Store.ok [roomConAna] : Store) =
        Store.ok (pre ++ { sel with paciente := some (pyStrip "Ana") } :: post) :=
  c6_success_frame true (Store.ok [roomLibre]) (Store.ok [roomConAna]) "Ana" "09:00"
    (some "R1")
    (RResult.success "Ana" "R1" "Ortodoncia" "Piso 1" "09:00" "08:00" "12:00") rfl rfl

/-- C3: when every check of the pipeline passes and the write succeeds,
the persisted dataset carries the resolved room with its "paciente" set
to the trimmed patient name (everything else as loaded), and the success
result carries the room's name, specialty, location, the requested time
and the room's operating hours. -/
theorem c3_success_commit (pre post : List Consultorio) (sel : Consultorio)
    (pn hora : String) (cn : Option String) (h_ini h_fin : String)
    (hpre : ∀ c ∈ pre, matchesSel cn c = false) (hsel : matchesSel cn sel = true)
    (hpn : pyStrip pn ≠ "") (hne : hora ≠ "") (htok : _time_ok hora = true)
    (hhi : horarioInicio sel = some h_ini) (hhf : horarioFin sel = some h_fin)
    (hine : h_ini ≠ "") (hfne : h_fin ≠ "")
    (htoki : _time_ok h_ini = true) (htokf : _time_ok h_fin = true)
    (hrange : _in_range hora h_ini h_fin = some true)
    (hfree : pyStrip (pacDe sel) = "") :
    reservar_consultorio true (Store.ok (pre ++ sel :: post)) pn hora cn =
      some (RResult.success pn (nombreDe sel) (espNomDe sel) (ubicDe sel) hora h_ini h_fin,
            Store.ok (pre ++ { sel with paciente := some (pyStrip pn) } :: post)) := by
  rw [reservar_unfold_ok true _ pn hora cn hpn hne htok,
      reservarCore_resolved true pre post sel pn hora cn h_ini h_fin true
        hpre hsel hhi hhf hine hfne htoki htokf hrange]
  simp [hfree]

/-- C3 witness: Ana reserves the free room R1 at 09:00. -/
theorem c3_witness :
    reservar_consultorio true (Store.ok [roomLibre]) "Ana" "09:00" (some "R1") =
      some (RResult.success "Ana" (nombreDe roomLibre) (espNomDe roomLibre) (ubicDe roomLibre)
              "09:00" "08:00" "12:00",
            Store.ok ([] ++ { roomLibre with paciente := some (pyStrip "Ana") } :: [])) :=
  c3_success_commit [] [] roomLibre "Ana" "09:00" (some "R1") "08:00" "12:00"
    (by simp) rfl (by decide) (by decide) rfl rfl rfl (by decide) (by decide) rfl rfl rfl rfl

/-- C7: with a resolved, validly scheduled room whose requested time is
out of range, the pipeline answers the out-of-hours failure (carrying the
room's hours) even when the room is also occupied: the range test runs
before the occupancy test. -/
theorem c7_range_checked_before_occupancy (w : Bool) (pre post : List Consultorio)
    (sel : Consultorio) (pn hora : String) (cn : Option String) (h_ini h_fin : String)
    (hpre : ∀ c ∈ pre, matchesSel cn c = false) (hsel : matchesSel cn sel = true)
    (hpn : pyStrip pn ≠ "") (hne : hora ≠ "") (htok : _time_ok hora = true)
    (hhi : horarioInicio sel = some h_ini) (hhf : horarioFin sel = some h_fin)
    (hine : h_ini ≠ "") (hfne : h_fin ≠ "")
    (htoki : _time_ok h_ini = true) (htokf : _time_ok h_fin = true)
    (hrange : _in_range hora h_ini h_fin = some false)
    (hocc : pyStrip (pacDe sel) ≠ "") :
    reservar_consultorio w (Store.ok (pre ++ sel :: post)) pn hora cn =
      some (RResult.outOfHours (nombreDe sel) h_ini h_fin hora, Store.ok (pre ++ sel :: post)) ∧
    (∀ n a, RResult.outOfHours (nombreDe sel) h_ini h_fin hora ≠ RResult.occupied n a) := by
  refine ⟨?_, fun n a h => by cases h⟩
  rw [reservar_unfold_ok w _ pn hora cn hpn hne htok,
      reservarCore_resolved w pre post sel pn hora cn h_ini h_fin false
        hpre hsel hhi hhf hine hfne htoki htokf hrange]
  simp

/-- C7 witness: R1 is occupied by Ana and 13:00 is out of its 08:00–12:00
hours; the answer is the out-of-hours failure, not the occupancy one. -/
theorem c7_witness :
    reservar_consultorio true (Store.ok [roomConAna]) "Luis" "13:00" (some "R1") =
      some (RResult.outOfHours (nombreDe roomConAna) "08:00" "12:00" "13:00",
            Store.ok ([] ++ roomConAna :: [])) ∧
    (∀ n a, RResult.outOfHours (nombreDe roomConAna) "08:00" "12:00" "13:00" ≠
      RResult.occupied n a) :=
  c7_range_checked_before_occupancy true [] [] roomConAna "Luis" "13:00" (some "R1")
    "08:00" "12:00" (by simp) rfl (by decide) (by decide) rfl rfl rfl (by decide) (by decide)
    rfl rfl rfl (by decide)

/-- C2 counterexample: room R1 has inicio 17:00 and fin 09:00, both valid
times with start after end; reserving at 10:00 yields the generic
out-of-hours failure (the message quoting the room's hours), not the
distinct invalid-schedule (ConfigError) failure the claim announces. -/
theorem c2_counterexample :
    reservar_consultorio true (Store.ok [roomInvertido]) "Ana" "10:00" (some "R1") =
      some (RResult.outOfHours "R1" "17:00" "09:00" "10:00", Store.ok [roomInvertido]) ∧
    (∀ nombre, RResult.outOfHours "R1" "17:00" "09:00" "10:00" ≠
      RResult.badSchedule nombre) := by
  refine ⟨rfl, fun nombre h => ?_⟩
  cases h

/-- C2 amended: a room whose bounds both parse but with start after end
passes the schedule-validity check, makes `_in_range` false for every
requested time, and so is reported as the generic out-of-hours failure;
the distinct ConfigError arises only when a bound is missing, empty or
unparseable. -/
theorem c2_amended_inverted_schedule (w : Bool) (pre post : List Consultorio)
    (sel : Consultorio) (pn hora : String) (cn : Option String) (h_ini h_fin : String)
    (vi vf : Nat)
    (hpre : ∀ c ∈ pre, matchesSel cn c = false) (hsel : matchesSel cn sel = true)
    (hpn : pyStrip pn ≠ "") (hne : hora ≠ "") (htok : _time_ok hora = true)
    (hhi : horarioInicio sel = some h_ini) (hhf : horarioFin sel = some h_fin)
    (hine : h_ini ≠ "") (hfne : h_fin ≠ "")
    (hvi : parseHM h_ini = some vi) (hvf : parseHM h_fin = some vf) (hlt : vf < vi) :
    reservar_consultorio w (Store.ok (pre ++ sel :: post)) pn hora cn =
      some (RResult.outOfHours (nombreDe sel) h_ini h_fin hora,
            Store.ok (pre ++ sel :: post)) := by
  have htoki : _time_ok h_ini = true := by unfold _time_ok; rw [hvi]; rfl
  have htokf : _time_ok h_fin = true := by unfold _time_ok; rw [hvf]; rfl
  have htok2 : (parseHM hora).isSome = true := htok
  obtain ⟨vt, hvt⟩ := Option.isSome_iff_exists.mp htok2
  have hrange : _in_range hora h_ini h_fin = some false := by
    rw [in_range_eq hora h_ini h_fin vt vi vf hvt hvi hvf]
    by_cases hle : vi ≤ vt
    · have hnot : ¬ vt ≤ vf := fun hc => absurd (le_trans hle hc) (not_le.mpr hlt)
      simp [hnot]
    · simp [hle]
  rw [reservar_unfold_ok w _ pn hora cn hpn hne htok,
      reservarCore_resolved w pre post sel pn hora cn h_ini h_fin false
        hpre hsel hhi hhf hine hfne htoki htokf hrange]
  simp

/-- C2 amended witness: the inverted-schedule room at a valid hour. -/
theorem c2_amended_witness :
    reservar_consultorio true (Store.ok [roomInvertido]) "Ana" "10:00" (some "R1") =
      some (RResult.outOfHours (nombreDe roomInvertido) "17:00" "09:00" "10:00",
            Store.ok ([] ++ roomInvertido :: [])) :=
  c2_amended_inverted_schedule true [] [] roomInvertido "Ana" "10:00" (some "R1")
    "17:00" "09:00" 1020 540 (by simp) rfl (by decide) (by decide) rfl rfl rfl
    (by decide) (by decide) rfl rfl (by decide)

/-- C5 counterexample: against a store holding only the room named "R1",
the selector "R1 " (trailing space) is not equal to any room name under
exact case-insensitive comparison, so the claim announces NotFoundError —
but the call strips both sides, resolves the room and reserves it. -/
theorem c5_counterexample :
    reservar_consultorio true (Store.ok [roomLibre]) "Ana" "09:00" (some "R1 ") =
      some (RResult.success "Ana" "R1" "Ortodoncia" "Piso 1" "09:00" "08:00" "12:00",
            Store.ok [roomConAna]) ∧
    (∀ crit, RResult.success "Ana" "R1" "Ortodoncia" "Piso 1" "09:00" "08:00" "12:00" ≠
      RResult.notFound crit) := by
  refine ⟨rfl, fun crit h => ?_⟩
  cases h

/-- C5 amended: room resolution selects the first room, in collection
order, whose name equals the selector case-insensitively after trimming
surrounding whitespace from both sides; a missing or empty selector
matches nothing; and when no room matches, the call (with the earlier
validations passing) fails with the not-found result and nothing further
runs (the store is returned as loaded). -/
theorem c5_amended_resolution :
    (∀ (n : String) (pre post : List Consultorio) (sel : Consultorio), n ≠ "" →
      (∀ c ∈ pre, pyLower (pyStrip ((c.nombre).getD "")) ≠ pyLower (pyStrip n)) →
      pyLower (pyStrip ((sel.nombre).getD "")) = pyLower (pyStrip n) →
      buscar (some n) (pre ++ sel :: post) = some (pre, sel, post)) ∧
    (∀ c : Consultorio, matchesSel none c = false ∧ matchesSel (some "") c = false) ∧
    (∀ (w : Bool) (cn : Option String) (data : List Consultorio) (pn hora : String),
      (∀ c ∈ data, matchesSel cn c = false) →
      pyStrip pn ≠ "" → hora ≠ "" → _time_ok hora = true →
      reservar_consultorio w (Store.ok data) pn hora cn =
        some (RResult.notFound (critOf cn), Store.ok data)) := by
  refine ⟨?_, ?_, ?_⟩
  · intro n pre post sel hn hpre hsel
    apply buscar_append
    · intro c hc
      have hne : (pyLower (pyStrip ((c.nombre).getD "")) == pyLower (pyStrip n)) = false :=
        beq_eq_false_iff_ne.mpr (hpre c hc)
      simp [matchesSel, hne]
    · have heq : (pyLower (pyStrip ((sel.nombre).getD "")) == pyLower (pyStrip n)) = true :=
        beq_iff_eq.mpr hsel
      simp [matchesSel, hn, heq]
  · intro c
    exact ⟨rfl, rfl⟩
  · intro w cn data pn hora hnone hpn hne htok
    rw [reservar_unfold_ok w data pn hora cn hpn hne htok]
    unfold reservarCore
    rw [buscar_none cn data hnone]

/-- C8 counterexample: the only room is free with specialty name
"Ortodoncia " (trailing space), which is not case-insensitively equal to
the filter "Ortodoncia", so under the claim no room qualifies and the
result should be the no-rooms notice — but the call strips both sides and
lists the room. -/
theorem c8_counterexample :
    get_consultorios_disponibles (Store.ok [roomEspTrailing]) (some "Ortodoncia") =
      some (LResult.listado
        "🦷 Consultorios disponibles:\n\n• R2\n  Especialidad: Ortodoncia \n  Ubicación: Piso 2\n  Horario: 08:00 - 12:00") ∧
    (∀ texto, LResult.listado
        "🦷 Consultorios disponibles:\n\n• R2\n  Especialidad: Ortodoncia \n  Ubicación: Piso 2\n  Horario: 08:00 - 12:00" ≠
      LResult.noneAvailable texto) := by
  refine ⟨rfl, fun texto h => ?_⟩
  cases h

/-- C8 amended: the availability loop retains exactly the rooms whose
"paciente" is empty or absent and whose specialty name equals the filter
case-insensitively after trimming surrounding whitespace on both sides;
when no room qualifies, the call returns the successful (ok true)
no-rooms notice, distinct from the ok-false load failure. -/
theorem c8_amended_listing :
    (∀ (filtro : Option String) (data : List Consultorio),
      seleccionar filtro data =
        data.filter (fun c => (((c.paciente).getD "") == "") && matchesEsp filtro c)) ∧
    (∀ (n : String) (c : Consultorio), n ≠ "" →
      (matchesEsp (some n) c = true ↔
        pyLower (pyStrip (espNombreDe c)) = pyLower (pyStrip n))) ∧
    (∀ (filtro : Option String) (data : List Consultorio),
      seleccionar filtro data = [] →
      get_consultorios_disponibles (Store.ok data) filtro =
        some (LResult.noneAvailable ("🔎 No hay consultorios disponibles para " ++
          critFiltro filtro ++ " en este momento.")) ∧
      okL (LResult.noneAvailable ("🔎 No hay consultorios disponibles para " ++
        critFiltro filtro ++ " en este momento.")) = true) ∧
    okL LResult.missingFile = false := by
  refine ⟨seleccionar_eq_filter, ?_, ?_, rfl⟩
  · intro n c hn
    have h0 : (n == "") = false := beq_eq_false_iff_ne.mpr hn
    simp [matchesEsp, h0]
  · intro filtro data h
    refine ⟨?_, rfl⟩
    simp [get_consultorios_disponibles, h]

/-- C9 counterexample: a readable store whose only room is free but has no
"horario" object; the listing operation reaches the formatting loop
outside the `try` block and raises an uncaught `KeyError` instead of
returning a structured result. -/
theorem c9_counterexample :
    get_consultorios_disponibles (Store.ok [roomSinHorario]) none = none := rfl

/-- C9 amended: `reservar_consultorio` returns a structured result for
every input (in particular every `strptime` inside `_in_range` runs only
after its operand passed `_time_ok`), and `get_consultorios_disponibles`
does so on unreadable or missing stores and on readable stores whose
rooms all carry full operating hours; `get_especialidades` reports ok
exactly on a readable catalog.  (The listing operation is NOT total: see
the counterexample.) -/
theorem c9_amended_totality :
    (∀ (w : Bool) (store : Store) (pn hora : String) (cn : Option String),
      (reservar_consultorio w store pn hora cn).isSome = true) ∧
    (∀ t i f : String, _time_ok t = true → _time_ok i = true → _time_ok f = true →
      (_in_range t i f).isSome = true) ∧
    (∀ (filtro : Option String) (data : List Consultorio),
      (∀ c ∈ data, (lineaDe c).isSome = true) →
      (get_consultorios_disponibles (Store.ok data) filtro).isSome = true) ∧
    (∀ filtro : Option String,
      (get_consultorios_disponibles Store.absent filtro).isSome = true ∧
      (get_consultorios_disponibles Store.unreadable filtro).isSome = true) ∧
    (∀ cst : CatStore, okE (get_especialidades cst) = true ↔ ∃ l, cst = CatStore.ok l) := by
  refine ⟨?_, in_range_isSome, ?_, fun filtro => ⟨rfl, rfl⟩, ?_⟩
  · intro w store pn hora cn
    cases store with
    | absent => rfl
    | unreadable =>
      simp only [reservar_consultorio]
      split <;> rfl
    | ok data =>
      simp only [reservar_consultorio]
      split
      · rfl
      · rename_i hchk
        exact reservarCore_isSome w data pn hora cn (checksPrevios_none_imp pn hora hchk)
  · intro filtro data h
    by_cases he : (seleccionar filtro data).isEmpty = true
    · simp [get_consultorios_disponibles, he]
    · have hsome := lineasDe_isSome (seleccionar filtro data)
        (fun c hc => h c (seleccionar_subset filtro data c hc))
      obtain ⟨ls, hls⟩ := Option.isSome_iff_exists.mp hsome
      simp [get_consultorios_disponibles, he, hls]
  · intro cst
    cases cst with
    | absent => simp [get_especialidades, okE]
    | unreadable => simp [get_especialidades, okE]
    | ok lista => simp [get_especialidades, okE]

/-- C10: a room whose "paciente" is the non-empty whitespace string " "
is excluded by the availability listing (truthiness: it counts as
occupied) yet accepted for reservation (the occupancy check strips the
value and finds it empty) — the two operations disagree on the same
store. -/
theorem c10_whitespace_occupant_inconsistency :
    get_consultorios_disponibles (Store.ok [roomEspacio]) none =
      some (LResult.noneAvailable
        "🔎 No hay consultorios disponibles para todas las especialidades en este momento.") ∧
    reservar_consultorio true (Store.ok [roomEspacio]) "Ana" "09:00" (some "R1") =
      some (RResult.success "Ana" "R1" "Ortodoncia" "Piso 1" "09:00" "08:00" "12:00",
            Store.ok [roomConAna]) :=
  ⟨rfl, rfl⟩

end Agendar
